import Mathlib

/-!
Shallow embedding of the AI Database Assistant (a Streamlit app that turns
natural-language questions into SQL via the Gemini API and runs them on an
SQLite database).  Pure logic is translated function by function from
`src/utils.py`, `src/config.py`, `src/database_manager.py`,
`src/ai_manager.py`, `src/session_manager.py` and
`src/visualization_manager.py`.  External effects (the SQLite driver, the
filesystem, the Gemini client, `json.loads`) are modelled as explicit
oracles passed in as arguments, and the database side effects of
`execute_query` are reified as an effect trace so that "no connection was
opened, nothing was executed" is the statement `trace = []`.
-/

namespace AIDb

/-! ### Python string primitives

Python's `str.strip`, `str.split`, `str.upper`, `str.replace`,
`str.startswith`, `str.find` and `str.rfind` modelled over `List Char`.
-/

/-- The whitespace characters Python's `str.strip` / `str.split` use
(space, tab, newline, carriage return, vertical tab, form feed). -/
def pySpace (c : Char) : Bool :=
  c == ' ' || c == '\t' || c == '\n' || c == '\r' ||
  c == Char.ofNat 11 || c == Char.ofNat 12

/-- Characters of a string with leading and trailing whitespace removed
(Python `str.strip`). -/
def pyStripChars (l : List Char) : List Char :=
  ((l.dropWhile pySpace).reverse.dropWhile pySpace).reverse

/-- Python `str.strip()`. -/
def pyStrip (s : String) : String :=
  ⟨pyStripChars s.data⟩

/-- Accumulator pass behind `pyWords`: groups maximal runs of
non-whitespace characters, discarding empty runs, as Python `str.split()`
with no separator does. -/
def pyWordsAux (acc : List Char) : List Char → List (List Char)
  | [] => if acc.isEmpty then [] else [acc.reverse]
  | c :: rest =>
    if pySpace c then
      if acc.isEmpty then pyWordsAux [] rest
      else acc.reverse :: pyWordsAux [] rest
    else pyWordsAux (c :: acc) rest

/-- Python `str.split()` (split on whitespace runs, no empty parts). -/
def pyWords (s : String) : List String :=
  (pyWordsAux [] s.data).map String.mk

/-- Whether the first list is an initial segment of the second
(Python `str.startswith`, also the matching step of `str.replace`). -/
def leadsWith : List Char → List Char → Bool
  | [], _ => true
  | _ :: _, [] => false
  | p :: ps, c :: cs => p == c && leadsWith ps cs

/-- Python `str.startswith`. -/
def pyStartsWith (s pat : String) : Bool :=
  leadsWith pat.data s.data

/-- Whether `pat` occurs as a contiguous substring (Python `pat in s`). -/
def containsSub (pat : List Char) : List Char → Bool
  | [] => leadsWith pat []
  | c :: rest => leadsWith pat (c :: rest) || containsSub pat rest

/-- Python `pat in s` on strings. -/
def strContainsSub (s pat : String) : Bool :=
  containsSub pat.data s.data

/-- Replace every (leftmost, non-overlapping) occurrence of the nonempty
pattern `p :: ps` by `repl`, scanning left to right: the core of Python
`str.replace` for a nonempty pattern. -/
def replaceFrom (p : Char) (ps : List Char) (repl : List Char) : List Char → List Char
  | [] => []
  | c :: rest =>
    if leadsWith (p :: ps) (c :: rest) then
      repl ++ replaceFrom p ps repl (rest.drop ps.length)
    else
      c :: replaceFrom p ps repl rest
termination_by l => l.length
decreasing_by
  · simp only [List.length_drop, List.length_cons]
    omega
  · simp only [List.length_cons]
    omega

/-- Python `s.replace(pat, repl)` for a nonempty `pat` (the only way the
program calls it). -/
def pyReplace (s pat repl : String) : String :=
  match pat.data with
  | [] => s
  | p :: ps => ⟨replaceFrom p ps repl.data s.data⟩

/-- Python `s[:n]` on characters. -/
def pyTake (s : String) (n : Nat) : String :=
  ⟨s.data.take n⟩

/-- Python `str.upper()` (per-character ASCII uppercasing). -/
def pyUpper (s : String) : String :=
  ⟨s.data.map Char.toUpper⟩

/-- Python `str.lower()` / SQLite ASCII case folding. -/
def pyLower (s : String) : String :=
  ⟨s.data.map Char.toLower⟩

/-- Python `text.rfind(c)`: index of the last occurrence, `none` for -1. -/
def pyRFindChar (l : List Char) (c : Char) : Option Nat :=
  match l.reverse.findIdx? (· == c) with
  | none => none
  | some i => some (l.length - 1 - i)

/-! ### src/config.py -/

namespace Config

def MAX_ROWS_DISPLAY : Nat := 1000

def MAX_ROWS_VISUALIZATION : Nat := 500

def MAX_UNIQUE_CATEGORIES : Nat := 20

def DB_TIMEOUT : Nat := 30

def API_MODEL : String := "gemini-2.5-flash"

def DANGEROUS_KEYWORDS : List String :=
  ["DROP", "DELETE", "TRUNCATE", "ALTER",
   "CREATE", "INSERT", "UPDATE", "REPLACE",
   "ATTACH", "DETACH", "PRAGMA"]

end Config

/-! ### src/utils.py -/

namespace Validator

/-- Embeds `Validator.is_safe_query` from src/utils.py.  The input is typed
`String`, so Python's `not isinstance(query, str)` arm cannot fire and
`not query` is `query = ""`.  Note the keyword test is membership of the
keyword in `query.upper().strip().split()`, the list of whitespace-delimited
tokens, not a substring test. -/
def is_safe_query (query : String) : Bool × String :=
  if query = "" then (false, "Invalid query format")
  else
    let query_upper := pyStrip (pyUpper query)
    match Config.DANGEROUS_KEYWORDS.find? (fun kw => (pyWords query_upper).contains kw) with
    | some keyword => (false, "Dangerous operation detected: " ++ keyword)
    | none =>
      if pyStartsWith query_upper "SELECT" then (true, "Query is safe")
      else (false, "Only SELECT queries are allowed")

end Validator

/-! ### src/database_manager.py: execute_query

The SQLite driver is an oracle `ExecEnv`: what `sqlite3.connect` and
`cursor.execute`+`fetchall` do on this call.  `execute_query` returns its
result dict together with the trace of database effects it performed, so
that not connecting / not executing is expressible. -/

/-- Outcome of `sqlite3.connect(db_path, ...)`. -/
inductive ConnOutcome
  | ok
  | sqliteErr (msg : String)
  | otherErr (msg : String)
deriving DecidableEq, Repr

/-- Outcome of `cursor.execute(query)` followed by `cursor.fetchall()`:
the column names from `cursor.description` and the fetched rows, or the
exception raised. -/
inductive RunOutcome
  | rows (cols : List String) (data : List (List String))
  | sqliteErr (msg : String)
  | otherErr (msg : String)
deriving DecidableEq, Repr

/-- The SQLite driver's behaviour on this call, keyed by path / query. -/
structure ExecEnv where
  conn : String → ConnOutcome
  run : String → RunOutcome

/-- One observable database effect of `execute_query`. -/
inductive DbEffect
  | connect
  | exec (query : String)
deriving DecidableEq, Repr

/-- The dict `execute_query` returns (keys absent from a branch are
`none`; the wall-clock `execution_time` value is not modelled). -/
structure QueryResult where
  status : String
  message : Option String := none
  data : Option (List (List String)) := none
  row_count : Option Nat := none
  columns : Option (List String) := none
deriving DecidableEq, Repr

namespace DatabaseManager

/-- Embeds `DatabaseManager.execute_query` from src/database_manager.py,
paired with the effect trace: `[]` when validation rejects the query
(the code returns before `sqlite3.connect`), `[.connect]` when the
connection attempt itself raises, `[.connect, .exec query]` otherwise. -/
def execute_query (env : ExecEnv) (query : String) (db_path : String) :
    QueryResult × List DbEffect :=
  let v := Validator.is_safe_query query
  if !v.1 then
    ({ status := "error", message := some v.2 }, [])
  else
    match env.conn db_path with
    | .sqliteErr m =>
      ({ status := "error", message := some ("Database error: " ++ m) }, [.connect])
    | .otherErr m =>
      ({ status := "error", message := some ("Execution error: " ++ m) }, [.connect])
    | .ok =>
      match env.run query with
      | .sqliteErr m =>
        ({ status := "error", message := some ("Database error: " ++ m) },
         [.connect, .exec query])
      | .otherErr m =>
        ({ status := "error", message := some ("Execution error: " ++ m) },
         [.connect, .exec query])
      | .rows cols data =>
        if !data.isEmpty then
          ({ status := "success", data := some data, row_count := some data.length,
             columns := some cols }, [.connect, .exec query])
        else
          ({ status := "success", data := some [], row_count := some 0,
             message := some "Query executed successfully but returned no results" },
           [.connect, .exec query])

end DatabaseManager

/-! ### src/database_manager.py: get_schema

The filesystem and the SQLite file's contents are an oracle `FileEnv`.
A table is modelled by its name, its `PRAGMA table_info` rows and its
`SELECT COUNT(*)` row count; the `SELECT * ... LIMIT 1` sample row is
not-`None` exactly when the row count is nonzero. -/

/-- One row of `PRAGMA table_info(t)`: (cid, name, type, notnull,
dflt_value, pk).  `notnull` and `pk` are the raw SQLite integers. -/
structure RawColumn where
  cid : Nat
  name : String
  ctype : String
  notnull : Nat
  dflt : Option String
  pk : Nat
deriving DecidableEq, Repr

/-- A table of the SQLite file. -/
structure SqlTable where
  name : String
  columns : List RawColumn
  row_count : Nat
deriving DecidableEq, Repr

/-- What the filesystem and the SQLite driver show `get_schema`:
whether the path exists, the file's `stat().st_size`, and all tables of
the database at the path (internal `sqlite_*` tables included). -/
structure FileEnv where
  pathExists : String → Bool
  fileSize : String → Nat
  tables : String → List SqlTable

/-- SQLite `name LIKE 'sqlite_%'`: `LIKE` is ASCII-case-insensitive, `_`
matches exactly one character and `%` any (possibly empty) tail, so the
pattern holds of names at least 7 characters long whose first six
characters casefold to "sqlite". -/
def likeSqlitePattern (name : String) : Bool :=
  leadsWith "sqlite".data (pyLower name).data && decide (7 ≤ name.data.length)

/-- One column entry of the `schema_info` dict (`type` defaults to
"TEXT" for a typeless column, `notnull`/`pk` through Python `bool`). -/
structure SchemaColumn where
  name : String
  type : String
  notnull : Bool
  pk : Bool
  dflt : Option String
deriving DecidableEq, Repr

/-- The per-table entry of `schema_info`. -/
structure TableInfo where
  columns : List SchemaColumn
  row_count : Nat
  has_data : Bool
deriving DecidableEq, Repr

/-- The `db_stats` dict (`database_size` is only set on the populated
branch). -/
structure DbStats where
  total_tables : Nat
  total_rows : Nat
  total_columns : Nat
  database_size : Option Nat := none
deriving DecidableEq, Repr

namespace DatabaseManager

/-- The `schema_info[table_name]` entry built in `get_schema`'s loop. -/
def mkTableInfo (t : SqlTable) : TableInfo :=
  { columns := t.columns.map (fun col =>
      { name := col.name
        type := if col.ctype = "" then "TEXT" else col.ctype
        notnull := col.notnull != 0
        pk := col.pk != 0
        dflt := col.dflt })
    row_count := t.row_count
    has_data := t.row_count != 0 }

/-- Embeds `DatabaseManager.get_schema` from src/database_manager.py.
`(none, none)` models Python's `None, None`; the schema dict is the
association list of kept tables in `sqlite_master` order.  The per-table
`try`/`except ... continue` is vacuous here because the oracle presents
each table's data directly. -/
def get_schema (env : FileEnv) (db_path : String) :
    Option (List (String × TableInfo)) × Option DbStats :=
  if db_path = "" || !env.pathExists db_path then (none, none)
  else
    let tables := (env.tables db_path).filter (fun t => !likeSqlitePattern t.name)
    if tables.isEmpty then
      (some [], some { total_tables := 0, total_rows := 0, total_columns := 0 })
    else
      let schema_info := tables.map (fun t => (t.name, mkTableInfo t))
      (some schema_info,
       some { total_tables := schema_info.length
              total_rows := (tables.map (·.row_count)).sum
              total_columns := (tables.map (fun t => t.columns.length)).sum
              database_size := some (env.fileSize db_path) })

end DatabaseManager

/-! ### src/ai_manager.py

The Gemini client and `json.loads` are oracles: `env model contents` is
what `client.models.generate_content(model=..., contents=...)` does, and
`parse` is `json.loads` (`none` for `json.JSONDecodeError`).  Parsed JSON
values are the inductive `PyJson`. -/

/-- A parsed JSON value (Python object after `json.loads`). -/
inductive PyJson
  | null
  | bool (b : Bool)
  | num (n : Int)
  | str (s : String)
  | arr (items : List PyJson)
  | obj (fields : List (String × PyJson))
deriving Repr, BEq

/-- Python `isinstance(result, dict)`. -/
def PyJson.isObj : PyJson → Bool
  | .obj _ => true
  | _ => false

/-- Python `dict.get(key)` on a parsed JSON object: `none` when the value
is not a dict or the key is absent. -/
def jsonGet (j : PyJson) (key : String) : Option PyJson :=
  match j with
  | .obj fields => (fields.find? (fun kv => kv.1 == key)).map (·.2)
  | _ => none

mutual

/-- Python `str()` of a parsed JSON value (exact on strings; the
renderings of the other shapes model Python's `str` output without
reproducing `repr` quoting). -/
def pyStrOfJson : PyJson → String
  | .null => "None"
  | .bool b => if b then "True" else "False"
  | .num n => toString n
  | .str s => s
  | .arr items => "[" ++ pyStrOfJsonList items ++ "]"
  | .obj fields => "\x7b" ++ pyStrOfJsonFields fields ++ "\x7d"

/-- Comma-joined renderings of a JSON array's items. -/
def pyStrOfJsonList : List PyJson → String
  | [] => ""
  | [x] => pyStrOfJson x
  | x :: y :: rest => pyStrOfJson x ++ ", " ++ pyStrOfJsonList (y :: rest)

/-- Comma-joined renderings of a JSON object's fields. -/
def pyStrOfJsonFields : List (String × PyJson) → String
  | [] => ""
  | [(k, v)] => k ++ ": " ++ pyStrOfJson v
  | (k, v) :: kv :: rest => k ++ ": " ++ pyStrOfJson v ++ ", " ++ pyStrOfJsonFields (kv :: rest)

end

/-- The dict literal `{"status": "error", "message": m}` the code builds
on its error paths. -/
def errorDict (m : PyJson) : PyJson :=
  .obj [("status", .str "error"), ("message", m)]

/-- Shorthand for an error dict with a string message. -/
def errorStr (m : String) : PyJson :=
  errorDict (.str m)

/-- Python `result.get("status") == "success"`: true exactly when the
"status" key holds the JSON string "success" (equality with any
non-string value is false in Python). -/
def getStatusIsSuccess (result : PyJson) : Bool :=
  match jsonGet result "status" with
  | some (.str s) => s == "success"
  | _ => false

/-- The Boolean status test agrees with the propositional one. -/
theorem getStatusIsSuccess_iff (result : PyJson) :
    getStatusIsSuccess result = true ↔
      jsonGet result "status" = some (.str "success") := by
  unfold getStatusIsSuccess
  cases h : jsonGet result "status" with
  | none => simp
  | some v =>
    cases v <;> simp

namespace AIManager

/-- The test `"404" in error_str or "NOT_FOUND" in error_str` deciding
whether `_try_generate_with_models` moves on to the next model name. -/
def isNotFoundError (e : String) : Bool :=
  strContainsSub e "404" || strContainsSub e "NOT_FOUND"

/-- What one `client.models.generate_content` call does: a response
(its `.text`) or a raised exception (its `str`). -/
inductive GenAttempt
  | ok (text : String)
  | exn (msg : String)
deriving DecidableEq, Repr

/-- How the loop of `_try_generate_with_models` ends: a response, a
re-raised exception, or `None` after the list runs out. -/
inductive TryResult
  | success (text : String)
  | raised (msg : String)
  | exhausted
deriving DecidableEq, Repr

/-- Embeds `AIManager._try_generate_with_models` from src/ai_manager.py,
instrumented with the list of model names it attempted, in order. -/
def _try_generate_with_models (gen : String → GenAttempt) :
    List String → List String × TryResult
  | [] => ([], .exhausted)
  | model_name :: rest =>
    match gen model_name with
    | .ok t => ([model_name], .success t)
    | .exn e =>
      if isNotFoundError e then
        let r := _try_generate_with_models gen rest
        (model_name :: r.1, r.2)
      else
        ([model_name], .raised e)

/-- The static fallback list built in `generate_sql` and
`generate_suggestions` (`Config.API_MODEL` is itself "gemini-2.5-flash"). -/
def model_names : List String :=
  [Config.API_MODEL,
   "gemini-2.5-flash",
   "gemini-2.5-pro",
   "gemini-1.5-flash",
   "gemini-1.5-pro",
   "gemini-pro"]

/-- The prompt f-string of `generate_sql`. -/
def sql_prompt (schema_text user_query : String) : String :=
  "\nYou are an expert SQLite database analyst.\n\nDATABASE SCHEMA:\n" ++
  schema_text ++
  "\n\nSTRICT RULES:\n1. ONLY generate SELECT queries\n2. Use valid SQLite syntax\n" ++
  "3. For \"all\" or \"everything\", DO NOT add LIMIT\n" ++
  "4. For aggregations (COUNT, SUM, AVG, GROUP BY), DO NOT add LIMIT\n" ++
  "5. For simple SELECT * queries, add LIMIT 10\n6. Use JOINs where required\n" ++
  "7. Return ONLY valid JSON (no markdown)\n\nJSON FORMAT:\n\x7b\n" ++
  "  \"status\": \"success\",\n  \"sql_query\": \"SQL_QUERY_HERE\",\n" ++
  "  \"explanation\": \"Short explanation\",\n" ++
  "  \"query_type\": \"aggregation|filtering|join|simple_select|analytical\",\n" ++
  "  \"estimated_complexity\": \"low|medium|high\"\n\x7d\n\nUSER QUESTION:\n" ++
  user_query ++ "\n"

/-- The markdown-fence post-processing of the model's response text:
`response.text.strip()`, then `.replace("```json", "").replace("```", "")`,
then `.strip()`. -/
def strip_fences (t : String) : String :=
  pyStrip (pyReplace (pyReplace (pyStrip t) "```json" "") "```" "")

/-- The `except` branch of `generate_sql` appends the available-model
list to a not-found error message (dead for re-raised errors, which are
never not-found, but embedded for fidelity).  `avail` is what
`list_available_models` would return. -/
def augment_error (e : String) (avail : List String) : String :=
  if isNotFoundError e then
    if !avail.isEmpty then
      e ++ "\n\nAvailable models: " ++ String.intercalate ", " (avail.take 5)
    else e
  else e

/-- Models `str()` of the `AttributeError` Python raises when
`result.get` is evaluated on a non-dict parse result (the exact library
wording is not modelled). -/
def attr_error_msg (result : PyJson) : String :=
  pyStrOfJson result ++ " has no attribute get"

/-- Embeds `AIManager.generate_sql` from src/ai_manager.py.  `env` is the
Gemini client, `parse` is `json.loads`, `avail` the model list the
`except` branch could fetch. -/
def generate_sql (env : String → String → GenAttempt) (parse : String → Option PyJson)
    (avail : List String) (schema_text user_query : String) : PyJson :=
  let prompt := sql_prompt schema_text user_query
  match (_try_generate_with_models (fun m => env m prompt) model_names).2 with
  | .exhausted =>
    errorStr "None of the tried models are available. Please check your API key and model availability."
  | .raised e =>
    errorStr ("AI error: " ++ augment_error e avail)
  | .success t =>
    match parse (strip_fences t) with
    | none => errorStr "AI returned invalid JSON"
    | some result =>
      if result.isObj then
        if getStatusIsSuccess result then result
        else errorDict ((jsonGet result "message").getD (.str "Invalid AI response"))
      else
        errorStr ("AI error: " ++ augment_error (attr_error_msg result) avail)

end AIManager

/-! ### src/ai_manager.py: generate_suggestions -/

/-- The single match step of `re.sub(r"\s*\([^)]*\)", "", s)` at the head
of `s`: greedily consume whitespace, then require `(`, then consume
non-`)` characters, then require `)`; return the rest of the string after
the match, or `none` when the pattern does not match here. -/
def matchParen (s : List Char) : Option (List Char) :=
  match s.drop (s.takeWhile pySpace).length with
  | c :: t =>
    if c = '(' then
      match t.drop (t.takeWhile (fun x => !(x == ')'))).length with
      | d :: u => if d = ')' then some u else none
      | [] => none
    else none
  | [] => none

/-- A successful head match consumes at least the two parentheses. -/
theorem matchParen_length_lt {s u : List Char} (h : matchParen s = some u) :
    u.length < s.length := by
  unfold matchParen at h
  rcases hd : s.drop (s.takeWhile pySpace).length with _ | ⟨c, t⟩ <;> rw [hd] at h <;>
    dsimp only at h
  · cases h
  · by_cases hc : c = '('
    · rw [if_pos hc] at h
      rcases ht : t.drop (t.takeWhile (fun x => !(x == ')'))).length with _ | ⟨d, u'⟩ <;>
        rw [ht] at h <;> dsimp only at h
      · cases h
      · by_cases hdd : d = ')'
        · rw [if_pos hdd] at h
          cases h
          have h1 := congrArg List.length hd
          have h2 := congrArg List.length ht
          simp only [List.length_drop, List.length_cons] at h1 h2
          omega
        · rw [if_neg hdd] at h
          cases h
    · rw [if_neg hc] at h
      cases h

/-- `re.sub(r"\s*\([^)]*\)", "", s)`: scan left to right, removing each
leftmost non-overlapping match. -/
def removeParensChars (s : List Char) : List Char :=
  match h : matchParen s with
  | some u => removeParensChars u
  | none =>
    match s with
    | [] => []
    | c :: rest => c :: removeParensChars rest
termination_by s.length
decreasing_by
  · exact matchParen_length_lt h
  · simp

/-- `re.sub(r"\s*\([^)]*\)", "", s)` on strings. -/
def remove_paren_groups (s : String) : String :=
  ⟨removeParensChars s.data⟩

/-- The `text.find("[")` / `text.rfind("]")` slice of
`generate_suggestions`: keep `text[start:end]` when a `[` occurs and the
last `]` ends after it, else the text unchanged. -/
def bracket_slice (t : String) : String :=
  let l := t.data
  match l.findIdx? (· == '['), pyRFindChar l ']' with
  | some s, some r => if s < r + 1 then ⟨(l.drop s).take (r + 1 - s)⟩ else t
  | some _, none => t
  | none, _ => t

namespace AIManager

/-- Embeds `AIManager._get_default_suggestions`. -/
def _get_default_suggestions : List String :=
  ["Show me the first 10 rows of data",
   "What are the total record counts per table?",
   "Show summary statistics for numeric columns"]

/-- The `schema_summary` lines of `generate_suggestions`: at most 5
tables, each with at most 5 column names. -/
def schema_summary (schema : List (String × TableInfo)) : List String :=
  (schema.take 5).map (fun ti =>
    ti.1 ++ ": " ++ String.intercalate ", " ((ti.2.columns.take 5).map (·.name)))

/-- The prompt f-string of `generate_suggestions`. -/
def suggestions_prompt (schema : List (String × TableInfo)) : String :=
  "\nBased on the database schema below, suggest 3 useful questions.\n\nTABLES:\n" ++
  String.intercalate " | " (schema_summary schema) ++
  "\n\nRULES:\n- Under 15 words each\n- Must be answerable via SQL\n- No explanations\n" ++
  "- Return ONLY JSON array\n\nFORMAT:\n" ++
  "[\"Question 1?\", \"Question 2?\", \"Question 3?\"]\n"

/-- The per-suggestion cleanup
`re.sub(r"\s*\([^)]*\)", "", str(s)).strip()`. -/
def clean_suggestion (s : PyJson) : String :=
  pyStrip (remove_paren_groups (pyStrOfJson s))

/-- Embeds `AIManager.generate_suggestions` from src/ai_manager.py.  Any
exception inside the `try` (a re-raised model error, or `json.loads`
failing, modelled by `parse` returning `none`) lands in the `except`
branch, which returns the defaults. -/
def generate_suggestions (env : String → String → GenAttempt)
    (parse : String → Option PyJson) (schema : List (String × TableInfo)) :
    List String :=
  let prompt := suggestions_prompt schema
  match (_try_generate_with_models (fun m => env m prompt) model_names).2 with
  | .exhausted => _get_default_suggestions
  | .raised _ => _get_default_suggestions
  | .success t =>
    let text := bracket_slice (strip_fences t)
    match parse text with
    | none => _get_default_suggestions
    | some j =>
      match j with
      | .arr suggestions =>
        let cleaned := ((suggestions.take 3).map clean_suggestion).filter (fun s => s != "")
        if !cleaned.isEmpty then cleaned else _get_default_suggestions
      | _ => _get_default_suggestions

end AIManager

/-! ### src/session_manager.py

`st.session_state` is the `AppState` record.  Clock reads are arguments:
`now` is `datetime.now().strftime(...)` and `t` is `int(time.time())`.
A chat message is a dict; the fields the code reads or copies are
explicit, and `extra` stands for any further keys (result DataFrames
etc.) that `save_current`'s cleaning step drops. -/

/-- A chat message dict. -/
structure Message where
  role : String
  content : String
  sql_query : Option String := none
  execution_time : Option Int := none
  extra : List String := []
deriving DecidableEq, Repr

/-- A saved session dict (`session_data` in `save_current`). -/
structure SessionData where
  id : Option String
  title : String
  timestamp : String
  messages : List Message
  query_history : List String
  message_count : Nat
deriving DecidableEq, Repr

/-- The fields of `st.session_state` the chat-session code touches. -/
structure AppState where
  messages : List Message
  query_history : List String
  chat_sessions : List SessionData
  current_session_id : Option String
  session_counter : Nat
deriving Repr

namespace ChatSessionManager

/-- The `clean_msg` built for each message in `save_current`: keep
`role`, `content`, and `sql_query` / `execution_time` when present
(`str` and `float` casts are identities here), drop everything else. -/
def clean_message (m : Message) : Message :=
  { role := m.role
    content := m.content
    sql_query := m.sql_query
    execution_time := m.execution_time }

/-- The session title: first user message's content truncated to 50
characters with an ellipsis, else "New Chat". -/
def session_title (msgs : List Message) : String :=
  match msgs.find? (fun m => m.role == "user") with
  | some m => pyTake m.content 50 ++ (if 50 < m.content.data.length then "..." else "")
  | none => "New Chat"

/-- The `session_data` dict `save_current` builds. -/
def build_session_data (now : String) (st : AppState) : SessionData :=
  { id := st.current_session_id
    title := session_title st.messages
    timestamp := now
    messages := st.messages.map clean_message
    query_history := st.query_history
    message_count := (st.messages.filter (fun m => m.role == "user")).length }

/-- Embeds `ChatSessionManager.save_current` from src/session_manager.py:
no-op on an empty message list, else replace the entry whose id equals
the current session id in place, or insert the new entry at index 0, then
truncate the list to its first 50 entries when it exceeds 50. -/
def save_current (now : String) (st : AppState) : AppState :=
  if st.messages.isEmpty then st
  else
    let session_data := build_session_data now st
    let sessions :=
      match st.chat_sessions.findIdx? (fun s => s.id == st.current_session_id) with
      | some existing_index => st.chat_sessions.set existing_index session_data
      | none => session_data :: st.chat_sessions
    let sessions := if 50 < sessions.length then sessions.take 50 else sessions
    { st with chat_sessions := sessions }

/-- Python truthiness of `st.session_state.current_session_id`. -/
def truthy_id : Option String → Bool
  | none => false
  | some s => s != ""

/-- Embeds `ChatSessionManager.create_new`: build a fresh session id from
the counter and the clock, bump the counter, save the current session if
there is one with messages, then point the state at the new empty
session. -/
def create_new (t : Nat) (now : String) (st : AppState) : AppState :=
  let session_id := "session_" ++ toString st.session_counter ++ "_" ++ toString t
  let st1 := { st with session_counter := st.session_counter + 1 }
  let st2 :=
    if truthy_id st1.current_session_id && !st1.messages.isEmpty then
      save_current now st1
    else st1
  { st2 with current_session_id := some session_id, messages := [], query_history := [] }

/-- Embeds `ChatSessionManager.load`: save the current session if it has
messages, then, when a session with the given id exists, make it current
and copy its messages and query history into the live state. -/
def load (session_id : String) (now : String) (st : AppState) : AppState :=
  let st1 :=
    if truthy_id st.current_session_id && !st.messages.isEmpty then
      save_current now st
    else st
  match st1.chat_sessions.find? (fun s => s.id == some session_id) with
  | some session =>
    { st1 with current_session_id := some session_id
               messages := session.messages
               query_history := session.query_history }
  | none => st1

/-- Embeds `ChatSessionManager.delete`: drop every stored session whose
id equals the given one, then, when the deleted id is the current
session's, start a new chat (which first re-saves the still-live current
messages under the old id). -/
def delete (session_id : String) (t : Nat) (now : String) (st : AppState) : AppState :=
  let st1 := { st with
    chat_sessions := st.chat_sessions.filter (fun s => !(s.id == some session_id)) }
  if st1.current_session_id == some session_id then create_new t now st1 else st1

end ChatSessionManager

/-! ### src/visualization_manager.py

A pandas result DataFrame is abstracted to what `detect_opportunity`
reads of it: the number of rows, and for each column (in order) its name,
its dtype class as `select_dtypes` buckets it, and its `nunique()`. -/

/-- The dtype classes `detect_opportunity` distinguishes:
`select_dtypes(include=['number'])`, `['object', 'category']`,
`['datetime64']`, or anything else. -/
inductive Dtype
  | numeric
  | categorical
  | datetime
  | other
deriving DecidableEq, Repr, Inhabited

/-- One DataFrame column as `detect_opportunity` sees it. -/
structure DfColumn where
  name : String
  dtype : Dtype
  nunique : Nat
deriving DecidableEq, Repr, Inhabited

/-- A result DataFrame as `detect_opportunity` sees it. -/
structure DataFrame where
  cols : List DfColumn
  nrows : Nat
deriving DecidableEq, Repr

/-- Embeds `Validator.validate_dataframe` from src/utils.py on the
abstracted DataFrame: the input is typed, so only `not df.empty` can
fail, and pandas `df.empty` is true when either axis has length 0. -/
def validate_dataframe (df : DataFrame) : Bool :=
  !(df.nrows == 0) && !df.cols.isEmpty

/-- `df.select_dtypes(include=['number']).columns`. -/
def numeric_cols (df : DataFrame) : List DfColumn :=
  df.cols.filter (fun c => c.dtype == .numeric)

/-- `df.select_dtypes(include=['object', 'category']).columns`. -/
def categorical_cols (df : DataFrame) : List DfColumn :=
  df.cols.filter (fun c => c.dtype == .categorical)

/-- `df.select_dtypes(include=['datetime64']).columns`. -/
def datetime_cols (df : DataFrame) : List DfColumn :=
  df.cols.filter (fun c => c.dtype == .datetime)

/-- The chart-configuration dict `detect_opportunity` returns. -/
structure ChartConfig where
  type : String
  x : String
  y : String
  title : String
deriving DecidableEq, Repr

namespace VisualizationManager

/-- Embeds `VisualizationManager.detect_opportunity` from
src/visualization_manager.py (the `query_type` argument is never read;
the `except` branch is dead for the pure arithmetic of this body). -/
def detect_opportunity (df : DataFrame) (_query_type : String) : Option ChartConfig :=
  if !validate_dataframe df then none
  else if Config.MAX_ROWS_VISUALIZATION < df.nrows then none
  else
    let numeric := numeric_cols df
    let categorical := categorical_cols df
    if !categorical.isEmpty &&
        categorical.all (fun c => Config.MAX_UNIQUE_CATEGORIES < c.nunique) then none
    else
      let bar : Option ChartConfig :=
        match numeric, categorical with
        | n0 :: _, c0 :: _ =>
          if df.nrows ≤ 50 && c0.nunique ≤ Config.MAX_UNIQUE_CATEGORIES then
            some { type := "bar", x := c0.name, y := n0.name,
                   title := n0.name ++ " by " ++ c0.name }
          else none
        | _, _ => none
      match bar with
      | some cfg => some cfg
      | none =>
        if 2 ≤ numeric.length && df.nrows ≤ 100 then
          match numeric with
          | n0 :: n1 :: _ =>
            some { type := "scatter", x := n0.name, y := n1.name,
                   title := n1.name ++ " vs " ++ n0.name }
          | _ => none
        else
          match datetime_cols df, numeric with
          | d0 :: _, n0 :: _ =>
            some { type := "line", x := d0.name, y := n0.name,
                   title := n0.name ++ " over time" }
          | _, _ => none

/-- The chart-type heuristic exactly as the specification's claim states
it, written from the claim's words (not from the code): None for an
empty result set, for more than 500 rows, or when there are categorical
columns and all of them have more than 20 unique values; else bar when a
numeric and a categorical column exist, at most 50 rows, and the first
categorical column has at most 20 unique values; else scatter when at
least two numeric columns exist and at most 100 rows; else line when a
datetime and a numeric column exist; else None. -/
def chart_type_spec (df : DataFrame) : Option String :=
  if df.nrows == 0 || df.cols.isEmpty then none
  else if 500 < df.nrows then none
  else if !(categorical_cols df).isEmpty &&
      (categorical_cols df).all (fun c => 20 < c.nunique) then none
  else if !(numeric_cols df).isEmpty && !(categorical_cols df).isEmpty &&
      df.nrows ≤ 50 && (categorical_cols df).headI.nunique ≤ 20 then some "bar"
  else if 2 ≤ (numeric_cols df).length && df.nrows ≤ 100 then some "scatter"
  else if !(datetime_cols df).isEmpty && !(numeric_cols df).isEmpty then some "line"
  else none

end VisualizationManager

/-! ### Helper lemmas about the validator and execute_query -/

/-- A query one of whose whitespace-delimited uppercased tokens is a
blocklisted keyword is rejected by the validator. -/
theorem is_safe_query_fst_false_of_token {q kw : String}
    (hkw : kw ∈ Config.DANGEROUS_KEYWORDS)
    (htok : kw ∈ pyWords (pyStrip (pyUpper q))) :
    (Validator.is_safe_query q).1 = false := by
  unfold Validator.is_safe_query
  by_cases hq : q = ""
  · simp [hq]
  · rw [if_neg hq]
    dsimp only
    cases hfind : Config.DANGEROUS_KEYWORDS.find?
        (fun kw => (pyWords (pyStrip (pyUpper q))).contains kw) with
    | none =>
      exfalso
      rw [List.find?_eq_none] at hfind
      exact hfind kw hkw (by simpa using List.elem_eq_true_of_mem htok)
    | some k => rfl

/-- A query that, uppercased and stripped, does not start with "SELECT"
is rejected by the validator. -/
theorem is_safe_query_fst_false_of_not_select {q : String}
    (h : pyStartsWith (pyStrip (pyUpper q)) "SELECT" = false) :
    (Validator.is_safe_query q).1 = false := by
  unfold Validator.is_safe_query
  by_cases hq : q = ""
  · simp [hq]
  · rw [if_neg hq]
    dsimp only
    cases hfind : Config.DANGEROUS_KEYWORDS.find?
        (fun kw => (pyWords (pyStrip (pyUpper q))).contains kw) with
    | none => simp [h]
    | some k => rfl

/-- When the validator rejects, `execute_query` returns the validator's
message in an error dict and performs no database effect. -/
theorem execute_query_on_rejected {env : ExecEnv} {q db_path : String}
    (h : (Validator.is_safe_query q).1 = false) :
    DatabaseManager.execute_query env q db_path =
      ({ status := "error", message := some (Validator.is_safe_query q).2 }, []) := by
  unfold DatabaseManager.execute_query
  simp [h]

/-! ### Claim C1 -/

/-- C1 as stated is false on the code: the query
"SELECT 1;DROP TABLE t" contains the blocklisted keyword DROP
(case-insensitively, as a substring of the statement text),
yet `is_safe_query` answers (True, "Query is safe") — the keyword test is
run against whitespace-delimited tokens, and here DROP is glued to "1;" —
and `execute_query` goes on to connect and execute the statement. -/
theorem C1_counterexample :
    strContainsSub (pyUpper "SELECT 1;DROP TABLE t") "DROP" = true ∧
    Validator.is_safe_query "SELECT 1;DROP TABLE t" = (true, "Query is safe") ∧
    (DatabaseManager.execute_query
        ⟨fun _ => .ok, fun _ => .rows ["c"] [["1"]]⟩
        "SELECT 1;DROP TABLE t" "db.db").2 =
      [.connect, .exec "SELECT 1;DROP TABLE t"] := by
  refine ⟨rfl, rfl, rfl⟩

/-- C1 (amended): for every query string one of whose whitespace-delimited
tokens, after uppercasing and stripping, is a blocklisted keyword,
`Validator.is_safe_query` returns (False, message) and
`DatabaseManager.execute_query` returns that message in an error dict
without opening a connection or executing anything (empty effect
trace). -/
theorem C1_blocklisted_token_rejected (env : ExecEnv) (q db_path kw : String)
    (hkw : kw ∈ Config.DANGEROUS_KEYWORDS)
    (htok : kw ∈ pyWords (pyStrip (pyUpper q))) :
    (Validator.is_safe_query q).1 = false ∧
    DatabaseManager.execute_query env q db_path =
      ({ status := "error", message := some (Validator.is_safe_query q).2 }, []) := by
  have h := is_safe_query_fst_false_of_token hkw htok
  exact ⟨h, execute_query_on_rejected h⟩

/-- C1 witness: the amended theorem applied to the concrete query
"DROP TABLE users" whose first token is the keyword DROP. -/
theorem C1_blocklisted_token_rejected_witness :
    (Validator.is_safe_query "DROP TABLE users").1 = false ∧
    DatabaseManager.execute_query ⟨fun _ => .ok, fun _ => .rows [] []⟩
        "DROP TABLE users" "db.db" =
      ({ status := "error",
         message := some (Validator.is_safe_query "DROP TABLE users").2 }, []) :=
  C1_blocklisted_token_rejected ⟨fun _ => .ok, fun _ => .rows [] []⟩
    "DROP TABLE users" "db.db" "DROP" (by decide) (by decide)

/-! ### Claim C2 -/

/-- C2: whenever the validator answers False — in particular for every
query that, stripped and uppercased, does not start with SELECT —
`execute_query` returns an error dict carrying the validator's message
and performs no database effect at all (it neither connects nor executes,
so the database is untouched). -/
theorem C2_rejected_query_not_executed (env : ExecEnv) (q db_path : String)
    (h : (Validator.is_safe_query q).1 = false) :
    DatabaseManager.execute_query env q db_path =
      ({ status := "error", message := some (Validator.is_safe_query q).2 }, []) ∧
    (∀ q2 : String, pyStartsWith (pyStrip (pyUpper q2)) "SELECT" = false →
      (Validator.is_safe_query q2).1 = false) :=
  ⟨execute_query_on_rejected h, fun _ h2 => is_safe_query_fst_false_of_not_select h2⟩

/-- C2 witness: the theorem applied to the non-SELECT query
"EXPLAIN SELECT 1" (rejected with "Only SELECT queries are allowed"). -/
theorem C2_rejected_query_not_executed_witness :
    DatabaseManager.execute_query ⟨fun _ => .ok, fun _ => .rows [] []⟩
        "EXPLAIN SELECT 1" "db.db" =
      ({ status := "error",
         message := some (Validator.is_safe_query "EXPLAIN SELECT 1").2 }, []) ∧
    (∀ q2 : String, pyStartsWith (pyStrip (pyUpper q2)) "SELECT" = false →
      (Validator.is_safe_query q2).1 = false) :=
  C2_rejected_query_not_executed ⟨fun _ => .ok, fun _ => .rows [] []⟩
    "EXPLAIN SELECT 1" "db.db" (by decide)

/-! ### Claim C8 -/

/-- C8: for every driver behaviour, query and path, `execute_query`
returns a dict whose status is "success" or "error" (every exception
branch is caught and folded into an error dict), and on success the
row_count field is the length of the returned data (0 with an empty
DataFrame when the query yields no rows). -/
theorem C8_execute_query_total (env : ExecEnv) (q db_path : String) :
    ((DatabaseManager.execute_query env q db_path).1.status = "success" ∨
     (DatabaseManager.execute_query env q db_path).1.status = "error") ∧
    ((DatabaseManager.execute_query env q db_path).1.status = "success" →
      ∃ d, (DatabaseManager.execute_query env q db_path).1.data = some d ∧
        (DatabaseManager.execute_query env q db_path).1.row_count = some d.length) := by
  have hne : ¬ ("error" : String) = "success" := by decide
  unfold DatabaseManager.execute_query
  dsimp only
  split
  · exact ⟨Or.inr rfl, fun h => absurd h hne⟩
  · cases henv : env.conn db_path <;> dsimp only
    case ok =>
      cases hrun : env.run q <;> dsimp only
      case rows cols data =>
        split
        · exact ⟨Or.inl rfl, fun _ => ⟨data, rfl, rfl⟩⟩
        · exact ⟨Or.inl rfl, fun _ => ⟨[], rfl, rfl⟩⟩
      case sqliteErr m => exact ⟨Or.inr rfl, fun h => absurd h hne⟩
      case otherErr m => exact ⟨Or.inr rfl, fun h => absurd h hne⟩
    case sqliteErr m => exact ⟨Or.inr rfl, fun h => absurd h hne⟩
    case otherErr m => exact ⟨Or.inr rfl, fun h => absurd h hne⟩

/-! ### Claim C7 -/

/-- C7: on an existing, non-empty path whose database has no user table
(every table matches the LIKE pattern sqlite_%, or there are none),
`get_schema` returns the empty dict together with all-zero statistics;
for an empty or missing path it returns (None, None); and every table
matching the sqlite_% pattern is excluded from any schema it returns. -/
theorem C7_get_schema_empty_and_filtered (env : FileEnv) (db_path : String)
    (hne : ¬db_path = "") (hex : env.pathExists db_path = true) :
    ((∀ t ∈ env.tables db_path, likeSqlitePattern t.name = true) →
      DatabaseManager.get_schema env db_path =
        (some [], some { total_tables := 0, total_rows := 0, total_columns := 0 })) ∧
    (∀ (env2 : FileEnv) (p2 : String), (p2 = "" ∨ env2.pathExists p2 = false) →
      DatabaseManager.get_schema env2 p2 = (none, none)) ∧
    (∀ sch stats, DatabaseManager.get_schema env db_path = (some sch, stats) →
      ∀ e ∈ sch, likeSqlitePattern e.1 = false) := by
  refine ⟨?_, ?_, ?_⟩
  · intro hall
    have hfilter : (env.tables db_path).filter (fun t => !likeSqlitePattern t.name) = [] := by
      rw [List.filter_eq_nil_iff]
      intro t ht
      simp [hall t ht]
    unfold DatabaseManager.get_schema
    rw [if_neg (by simp [hne, hex])]
    simp [hfilter]
  · intro env2 p2 h2
    unfold DatabaseManager.get_schema
    rcases h2 with h2 | h2 <;> rw [if_pos (by simp [h2])]
  · intro sch stats heq e he
    unfold DatabaseManager.get_schema at heq
    rw [if_neg (by simp [hne, hex])] at heq
    by_cases hemp : ((env.tables db_path).filter (fun t => !likeSqlitePattern t.name)).isEmpty
    · rw [if_pos hemp] at heq
      cases heq
      cases he
    · rw [if_neg hemp] at heq
      dsimp only at heq
      have hsch : sch = ((env.tables db_path).filter (fun t => !likeSqlitePattern t.name)).map
          (fun t => (t.name, DatabaseManager.mkTableInfo t)) := by
        have := congrArg Prod.fst heq
        simpa using this.symm
      subst hsch
      rcases List.mem_map.mp he with ⟨t, ht, rfl⟩
      have := List.mem_filter.mp ht
      simpa using this.2

/-- C7 witness: a database whose only table is the internal
sqlite_sequence, on an existing path. -/
theorem C7_get_schema_empty_and_filtered_witness :
    ((∀ t ∈ (FileEnv.mk (fun _ => true) (fun _ => 4096)
          (fun _ => [⟨"sqlite_sequence", [], 0⟩])).tables "test.db",
        likeSqlitePattern t.name = true) →
      DatabaseManager.get_schema
          (FileEnv.mk (fun _ => true) (fun _ => 4096)
            (fun _ => [⟨"sqlite_sequence", [], 0⟩])) "test.db" =
        (some [], some { total_tables := 0, total_rows := 0, total_columns := 0 })) ∧
    (∀ (env2 : FileEnv) (p2 : String), (p2 = "" ∨ env2.pathExists p2 = false) →
      DatabaseManager.get_schema env2 p2 = (none, none)) ∧
    (∀ sch stats,
      DatabaseManager.get_schema
          (FileEnv.mk (fun _ => true) (fun _ => 4096)
            (fun _ => [⟨"sqlite_sequence", [], 0⟩])) "test.db" = (some sch, stats) →
      ∀ e ∈ sch, likeSqlitePattern e.1 = false) :=
  C7_get_schema_empty_and_filtered
    (FileEnv.mk (fun _ => true) (fun _ => 4096) (fun _ => [⟨"sqlite_sequence", [], 0⟩]))
    "test.db" (by decide) rfl

/-! ### Claim C6 -/

/-- C6: the chart-type decision of `detect_opportunity` agrees, for every
abstracted result set, with the claim's heuristic `chart_type_spec`:
None on an empty result set, on more than 500 rows, or when categorical
columns exist and all have more than 20 unique values; else bar / scatter
/ line by the claim's fixed priority, else None. -/
theorem C6_detect_opportunity_matches_spec (df : DataFrame) (query_type : String) :
    (VisualizationManager.detect_opportunity df query_type).map (fun c => c.type) =
      VisualizationManager.chart_type_spec df := by
  unfold VisualizationManager.detect_opportunity VisualizationManager.chart_type_spec
    validate_dataframe Config.MAX_ROWS_VISUALIZATION Config.MAX_UNIQUE_CATEGORIES
  dsimp only
  rcases hnum : numeric_cols df with _ | ⟨n0, ntl⟩ <;>
    rcases hcat : categorical_cols df with _ | ⟨c0, ctl⟩ <;>
      rcases hdt : datetime_cols df with _ | ⟨d0, dtl⟩ <;>
        (try rcases ntl with _ | ⟨n1, ntl2⟩) <;>
          simp_all <;> split_ifs <;> simp_all

/-! ### Helper lemmas about the chat-session operations -/

/-- Setting an index to the value already stored there leaves a list
unchanged. -/
theorem set_same_of_getElem? {α : Type _} : ∀ (l : List α) (i : Nat) (a : α),
    l[i]? = some a → l.set i a = l
  | [], i, a, h => by simp at h
  | x :: xs, 0, a, h => by
    simp only [List.getElem?_cons_zero, Option.some.injEq] at h
    subst h
    rfl
  | x :: xs, i + 1, a, h => by
    simp only [List.getElem?_cons_succ] at h
    show x :: xs.set i a = x :: xs
    rw [set_same_of_getElem? xs i a h]

/-- The id stored in `build_session_data` is the current session id. -/
theorem build_session_data_id (now : String) (st : AppState) :
    (ChatSessionManager.build_session_data now st).id = st.current_session_id := rfl

/-- `save_current` grows the session list by at most one entry and
preserves the 50-entry cap. -/
theorem save_current_length (now : String) (st : AppState) :
    (ChatSessionManager.save_current now st).chat_sessions.length ≤
      st.chat_sessions.length + 1 ∧
    (st.chat_sessions.length ≤ 50 →
      (ChatSessionManager.save_current now st).chat_sessions.length ≤ 50) := by
  unfold ChatSessionManager.save_current
  dsimp only
  split
  · exact ⟨by omega, fun hl => hl⟩
  · cases hfind : st.chat_sessions.findIdx?
        (fun s => s.id == st.current_session_id) <;> dsimp only
    case some i =>
      split <;> rename_i hcap
      · simp only [List.length_take, List.length_set] at hcap ⊢
        omega
      · simp only [List.length_set] at hcap ⊢
        omega
    case none =>
      split <;> rename_i hcap
      · simp only [List.length_take, List.length_cons] at hcap ⊢
        omega
      · simp only [List.length_cons] at hcap ⊢
        omega

/-- `save_current` with a new id inserts the new entry at position 0 and
keeps only the first 50 entries. -/
theorem save_current_insert (now : String) (st : AppState)
    (hm : st.messages.isEmpty = false)
    (hfind : st.chat_sessions.findIdx? (fun s => s.id == st.current_session_id) = none) :
    (ChatSessionManager.save_current now st).chat_sessions =
      (ChatSessionManager.build_session_data now st :: st.chat_sessions).take 50 := by
  unfold ChatSessionManager.save_current
  rw [if_neg (by simp [hm])]
  dsimp only
  rw [hfind]
  dsimp only
  split <;> rename_i hcap
  · rfl
  · rw [List.take_of_length_le (by simp only [List.length_cons] at hcap ⊢; omega)]

/-- `save_current` on a capped list with the current id already stored
replaces that entry in place: the list of ids is unchanged. -/
theorem save_current_ids_replace (now : String) (st : AppState) (i : Nat)
    (hfind : st.chat_sessions.findIdx? (fun s => s.id == st.current_session_id) = some i)
    (hlen : st.chat_sessions.length ≤ 50) :
    (ChatSessionManager.save_current now st).chat_sessions.map (fun s => s.id) =
      st.chat_sessions.map (fun s => s.id) := by
  unfold ChatSessionManager.save_current
  dsimp only
  split
  · rfl
  · rw [hfind]
    dsimp only
    rw [if_neg (by simp only [List.length_set]; omega)]
    rw [List.map_set]
    rw [List.findIdx?_eq_some_iff_getElem] at hfind
    obtain ⟨hi, hp, -⟩ := hfind
    have hid : st.chat_sessions[i].id = st.current_session_id := by
      simpa using hp
    apply set_same_of_getElem?
    rw [List.getElem?_map, List.getElem?_eq_getElem hi]
    simp [hid, build_session_data_id]

/-- `save_current` preserves distinctness of the stored session ids. -/
theorem save_current_ids_nodup (now : String) (st : AppState)
    (h : (st.chat_sessions.map (fun s => s.id)).Nodup) :
    ((ChatSessionManager.save_current now st).chat_sessions.map (fun s => s.id)).Nodup := by
  unfold ChatSessionManager.save_current
  dsimp only
  split
  · exact h
  · have hnodup0 : ((match st.chat_sessions.findIdx?
          (fun (s : SessionData) => s.id == st.current_session_id) with
        | some i => st.chat_sessions.set i (ChatSessionManager.build_session_data now st)
        | none => ChatSessionManager.build_session_data now st :: st.chat_sessions).map
          (fun (s : SessionData) => s.id)).Nodup := by
      cases hfind : st.chat_sessions.findIdx?
          (fun (s : SessionData) => s.id == st.current_session_id) with
      | some i =>
        dsimp only
        rw [List.findIdx?_eq_some_iff_getElem] at hfind
        obtain ⟨hi, hp, -⟩ := hfind
        have hid : st.chat_sessions[i].id = st.current_session_id := by
          simpa using hp
        rw [List.map_set, set_same_of_getElem?]
        · exact h
        · rw [List.getElem?_map, List.getElem?_eq_getElem hi]
          simp [hid, build_session_data_id]
      | none =>
        dsimp only
        rw [List.map_cons]
        refine List.nodup_cons.mpr ⟨?_, h⟩
        intro hmem
        rcases List.mem_map.mp hmem with ⟨s, hs, hid⟩
        have := (List.findIdx?_eq_none_iff.mp hfind) s hs
        rw [build_session_data_id] at hid
        rw [hid] at this
        simp at this
    generalize hM : (match st.chat_sessions.findIdx?
        (fun (s : SessionData) => s.id == st.current_session_id) with
      | some i => st.chat_sessions.set i (ChatSessionManager.build_session_data now st)
      | none => ChatSessionManager.build_session_data now st :: st.chat_sessions) =
        sessions0 at hnodup0 ⊢
    split
    · dsimp only
      rw [List.map_take]
      exact List.Nodup.sublist (List.take_sublist _ _) hnodup0
    · exact hnodup0

/-- `create_new` only touches the session list through `save_current` on
the counter-bumped state. -/
theorem create_new_sessions_eq (t : Nat) (now : String) (st : AppState) :
    (ChatSessionManager.create_new t now st).chat_sessions =
      (if ChatSessionManager.truthy_id st.current_session_id && !st.messages.isEmpty
       then ChatSessionManager.save_current now
         { st with session_counter := st.session_counter + 1 }
       else st).chat_sessions := by
  unfold ChatSessionManager.create_new
  dsimp only
  by_cases hc : (ChatSessionManager.truthy_id st.current_session_id &&
      !st.messages.isEmpty) = true
  · rw [if_pos hc, if_pos hc]
  · rw [if_neg hc, if_neg hc]

/-- `load` only touches the session list through `save_current`. -/
theorem load_sessions_eq (sid : String) (now : String) (st : AppState) :
    (ChatSessionManager.load sid now st).chat_sessions =
      (if ChatSessionManager.truthy_id st.current_session_id && !st.messages.isEmpty
       then ChatSessionManager.save_current now st
       else st).chat_sessions := by
  unfold ChatSessionManager.load
  dsimp only
  split <;> rfl

/-- `create_new` grows the session list by at most one and preserves the
cap. -/
theorem create_new_length (t : Nat) (now : String) (st : AppState) :
    (ChatSessionManager.create_new t now st).chat_sessions.length ≤
      st.chat_sessions.length + 1 ∧
    (st.chat_sessions.length ≤ 50 →
      (ChatSessionManager.create_new t now st).chat_sessions.length ≤ 50) := by
  rw [create_new_sessions_eq]
  split
  · exact save_current_length now { st with session_counter := st.session_counter + 1 }
  · exact ⟨by omega, fun hl => hl⟩

/-- `load` grows the session list by at most one and preserves the cap. -/
theorem load_length (sid : String) (now : String) (st : AppState) :
    (ChatSessionManager.load sid now st).chat_sessions.length ≤
      st.chat_sessions.length + 1 ∧
    (st.chat_sessions.length ≤ 50 →
      (ChatSessionManager.load sid now st).chat_sessions.length ≤ 50) := by
  rw [load_sessions_eq]
  split
  · exact save_current_length now st
  · exact ⟨by omega, fun hl => hl⟩

/-- `delete` grows the session list by at most one and preserves the
cap (it first removes every matching entry, then may re-save the current
session through `create_new`). -/
theorem delete_length (sid : String) (t : Nat) (now : String) (st : AppState) :
    (ChatSessionManager.delete sid t now st).chat_sessions.length ≤
      st.chat_sessions.length + 1 ∧
    (st.chat_sessions.length ≤ 50 →
      (ChatSessionManager.delete sid t now st).chat_sessions.length ≤ 50) := by
  unfold ChatSessionManager.delete
  dsimp only
  have hfl : (st.chat_sessions.filter (fun s => !(s.id == some sid))).length ≤
      st.chat_sessions.length := List.length_filter_le _ _
  split
  · have := create_new_length t now
      { st with chat_sessions := st.chat_sessions.filter (fun s => !(s.id == some sid)) }
    refine ⟨by have h1 := this.1; dsimp only at h1; omega, fun hl => ?_⟩
    have h2 := this.2
    dsimp only at h2
    exact h2 (by omega)
  · refine ⟨?_, fun hl => ?_⟩ <;> dsimp only <;> omega

/-- `create_new` preserves distinctness of the stored session ids. -/
theorem create_new_ids_nodup (t : Nat) (now : String) (st : AppState)
    (h : (st.chat_sessions.map (fun s => s.id)).Nodup) :
    ((ChatSessionManager.create_new t now st).chat_sessions.map (fun s => s.id)).Nodup := by
  rw [create_new_sessions_eq]
  split
  · exact save_current_ids_nodup now { st with session_counter := st.session_counter + 1 } h
  · exact h

/-- `load` preserves distinctness of the stored session ids. -/
theorem load_ids_nodup (sid : String) (now : String) (st : AppState)
    (h : (st.chat_sessions.map (fun s => s.id)).Nodup) :
    ((ChatSessionManager.load sid now st).chat_sessions.map (fun s => s.id)).Nodup := by
  rw [load_sessions_eq]
  split
  · exact save_current_ids_nodup now st h
  · exact h

/-- `delete` preserves distinctness of the stored session ids. -/
theorem delete_ids_nodup (sid : String) (t : Nat) (now : String) (st : AppState)
    (h : (st.chat_sessions.map (fun s => s.id)).Nodup) :
    ((ChatSessionManager.delete sid t now st).chat_sessions.map (fun s => s.id)).Nodup := by
  unfold ChatSessionManager.delete
  dsimp only
  have hfil : ((st.chat_sessions.filter (fun s => !(s.id == some sid))).map
      (fun s => s.id)).Nodup :=
    List.Nodup.sublist ((List.filter_sublist _).map _) h
  split
  · exact create_new_ids_nodup t now
      { st with chat_sessions := st.chat_sessions.filter (fun s => !(s.id == some sid)) }
      hfil
  · exact hfil

/-! ### Claim C3 -/

/-- C3 as stated is false on the code: `create_new` (and likewise `load`
and `delete`) can grow the chat-session list, because it first saves the
still-unsaved current session.  From a state with an empty list, one
user message and a current session id, `create_new` leaves a list of one
entry. -/
theorem C3_counterexample :
    (({ messages := [{ role := "user", content := "hi" }],
        query_history := [], chat_sessions := [],
        current_session_id := some "s0", session_counter := 0 } : AppState)
      |> ChatSessionManager.create_new 0 "ts").chat_sessions.length = 1 ∧
    (({ messages := [{ role := "user", content := "hi" }],
        query_history := [], chat_sessions := [],
        current_session_id := some "s0", session_counter := 0 } : AppState)).chat_sessions.length
      = 0 := ⟨rfl, rfl⟩

/-- C3 (amended): the chat-session list never exceeds 50 entries: from a
state within the cap, `save_current` stays within the cap, inserting the
new session at position 0 and discarding the oldest (last) entries when
the cap would be exceeded, and `create_new`, `load` and `delete` stay
within the cap as well, growing the list by at most one entry (each may
save the current session once before switching away from it). -/
theorem C3_session_list_capped (now : String) (t : Nat) (sid : String) (st : AppState)
    (h : st.chat_sessions.length ≤ 50) :
    (ChatSessionManager.save_current now st).chat_sessions.length ≤ 50 ∧
    (ChatSessionManager.create_new t now st).chat_sessions.length ≤ 50 ∧
    (ChatSessionManager.load sid now st).chat_sessions.length ≤ 50 ∧
    (ChatSessionManager.delete sid t now st).chat_sessions.length ≤ 50 ∧
    (ChatSessionManager.create_new t now st).chat_sessions.length ≤
      st.chat_sessions.length + 1 ∧
    (ChatSessionManager.load sid now st).chat_sessions.length ≤
      st.chat_sessions.length + 1 ∧
    (ChatSessionManager.delete sid t now st).chat_sessions.length ≤
      st.chat_sessions.length + 1 ∧
    (st.messages.isEmpty = false →
      st.chat_sessions.findIdx? (fun s => s.id == st.current_session_id) = none →
      (ChatSessionManager.save_current now st).chat_sessions =
        (ChatSessionManager.build_session_data now st :: st.chat_sessions).take 50) :=
  ⟨(save_current_length now st).2 h,
   (create_new_length t now st).2 h,
   (load_length sid now st).2 h,
   (delete_length sid t now st).2 h,
   (create_new_length t now st).1,
   (load_length sid now st).1,
   (delete_length sid t now st).1,
   fun hm hfind => save_current_insert now st hm hfind⟩

/-- A concrete session entry used by witness states. -/
def sampleStored : SessionData :=
  { id := some "old", title := "t", timestamp := "ts0",
    messages := [], query_history := [], message_count := 0 }

/-- A concrete one-entry state used by witness statements: one unsaved
user message under the current id "s1", one stored session "old". -/
def sampleState : AppState :=
  { messages := [{ role := "user", content := "hello world" }],
    query_history := ["q1"],
    chat_sessions := [sampleStored],
    current_session_id := some "s1",
    session_counter := 2 }

/-- C3 witness: the amended theorem at the concrete one-entry state. -/
theorem C3_session_list_capped_witness :
    (ChatSessionManager.save_current "ts" sampleState).chat_sessions.length ≤ 50 ∧
    (ChatSessionManager.create_new 7 "ts" sampleState).chat_sessions.length ≤ 50 ∧
    (ChatSessionManager.load "old" "ts" sampleState).chat_sessions.length ≤ 50 ∧
    (ChatSessionManager.delete "old" 7 "ts" sampleState).chat_sessions.length ≤ 50 ∧
    (ChatSessionManager.create_new 7 "ts" sampleState).chat_sessions.length ≤
      sampleState.chat_sessions.length + 1 ∧
    (ChatSessionManager.load "old" "ts" sampleState).chat_sessions.length ≤
      sampleState.chat_sessions.length + 1 ∧
    (ChatSessionManager.delete "old" 7 "ts" sampleState).chat_sessions.length ≤
      sampleState.chat_sessions.length + 1 ∧
    (sampleState.messages.isEmpty = false →
      sampleState.chat_sessions.findIdx?
        (fun s => s.id == sampleState.current_session_id) = none →
      (ChatSessionManager.save_current "ts" sampleState).chat_sessions =
        (ChatSessionManager.build_session_data "ts" sampleState ::
          sampleState.chat_sessions).take 50) :=
  C3_session_list_capped "ts" 7 "old" sampleState (by decide)

/-! ### Claim C9 -/

/-- C9 as stated is false on the code: `delete` does not always remove
every entry with the given id.  Deleting the current session while its
messages are still live first filters it out, but the embedded
`create_new` re-saves the live messages under the old id, so an entry
with that id is back in the list afterwards. -/
theorem C9_counterexample :
    ((({ messages := [{ role := "user", content := "hi" }],
         query_history := [],
         chat_sessions := [{ id := some "s0", title := "t", timestamp := "ts",
                             messages := [], query_history := [], message_count := 1 }],
         current_session_id := some "s0",
         session_counter := 1 } : AppState)
       |> ChatSessionManager.delete "s0" 3 "now").chat_sessions.map
         (fun s => s.id)) = [some "s0"] ∧
    (([{ id := some "s0", title := "t", timestamp := "ts",
         messages := [], query_history := [], message_count := 1 }] :
        List SessionData).map (fun s => s.id)).Nodup := by
  refine ⟨rfl, by decide⟩

/-- C9 (amended): starting from a list with pairwise-distinct ids,
`save_current` replaces the entry carrying the current id in place
(the stored id list is unchanged) instead of inserting a duplicate, and
`delete`'s filtering step removes every entry with the given id — though
deleting the live current session immediately re-saves one entry under
that id — so `save_current`, `create_new`, `load` and `delete` all
preserve pairwise-distinct ids. -/
theorem C9_session_ids_distinct (now : String) (t : Nat) (sid : String) (st : AppState)
    (h : (st.chat_sessions.map (fun s => s.id)).Nodup) :
    ((ChatSessionManager.save_current now st).chat_sessions.map (fun s => s.id)).Nodup ∧
    ((ChatSessionManager.create_new t now st).chat_sessions.map (fun s => s.id)).Nodup ∧
    ((ChatSessionManager.load sid now st).chat_sessions.map (fun s => s.id)).Nodup ∧
    ((ChatSessionManager.delete sid t now st).chat_sessions.map (fun s => s.id)).Nodup ∧
    (∀ i, st.chat_sessions.findIdx? (fun s => s.id == st.current_session_id) = some i →
      st.chat_sessions.length ≤ 50 →
      (ChatSessionManager.save_current now st).chat_sessions.map (fun s => s.id) =
        st.chat_sessions.map (fun s => s.id)) ∧
    (∀ s ∈ st.chat_sessions.filter (fun s => !(s.id == some sid)), ¬s.id = some sid) :=
  ⟨save_current_ids_nodup now st h,
   create_new_ids_nodup t now st h,
   load_ids_nodup sid now st h,
   delete_ids_nodup sid t now st h,
   fun i hfind hlen => save_current_ids_replace now st i hfind hlen,
   fun s hs => by
     have := (List.mem_filter.mp hs).2
     simpa using this⟩

/-- C9 witness: the amended theorem at the concrete one-entry state
(current id "s1" not yet stored, stored id "old"). -/
theorem C9_session_ids_distinct_witness :
    ((ChatSessionManager.save_current "ts" sampleState).chat_sessions.map
      (fun s => s.id)).Nodup ∧
    ((ChatSessionManager.create_new 7 "ts" sampleState).chat_sessions.map
      (fun s => s.id)).Nodup ∧
    ((ChatSessionManager.load "old" "ts" sampleState).chat_sessions.map
      (fun s => s.id)).Nodup ∧
    ((ChatSessionManager.delete "old" 7 "ts" sampleState).chat_sessions.map
      (fun s => s.id)).Nodup ∧
    (∀ i, sampleState.chat_sessions.findIdx?
        (fun s => s.id == sampleState.current_session_id) = some i →
      sampleState.chat_sessions.length ≤ 50 →
      (ChatSessionManager.save_current "ts" sampleState).chat_sessions.map
          (fun s => s.id) =
        sampleState.chat_sessions.map (fun s => s.id)) ∧
    (∀ s ∈ sampleState.chat_sessions.filter (fun s => !(s.id == some "old")),
      ¬s.id = some "old") :=
  C9_session_ids_distinct "ts" 7 "old" sampleState (by decide)

/-! ### Helper lemmas about the model-fallback loop -/

/-- The loop attempts a prefix of the model-name list, in order. -/
theorem try_generate_trace_prefix (gen : String → AIManager.GenAttempt) :
    ∀ names : List String,
      (AIManager._try_generate_with_models gen names).1 <+: names
  | [] => by simp [AIManager._try_generate_with_models]
  | m :: rest => by
    unfold AIManager._try_generate_with_models
    cases hg : gen m with
    | ok t => exact ⟨rest, rfl⟩
    | exn e =>
      dsimp only
      split
      · exact List.cons_prefix_cons.mpr ⟨rfl, try_generate_trace_prefix gen rest⟩
      · exact ⟨rest, rfl⟩

/-- The loop ends with `None` exactly when every model name in the list
fails with a not-found error. -/
theorem try_generate_exhausted_iff (gen : String → AIManager.GenAttempt) :
    ∀ names : List String,
      (AIManager._try_generate_with_models gen names).2 = .exhausted ↔
        ∀ m ∈ names, ∃ e, gen m = .exn e ∧ AIManager.isNotFoundError e = true
  | [] => by simp [AIManager._try_generate_with_models]
  | m :: rest => by
    unfold AIManager._try_generate_with_models
    cases hg : gen m with
    | ok t =>
      dsimp only
      refine ⟨fun h => absurd h (by simp), fun h => ?_⟩
      obtain ⟨e, he, -⟩ := h m (by simp)
      rw [hg] at he
      cases he
    | exn e =>
      dsimp only
      split
      · rename_i hnf
        have ih := try_generate_exhausted_iff gen rest
        constructor
        · intro h m' hm'
          rcases List.mem_cons.mp hm' with rfl | hm'
          · exact ⟨e, hg, hnf⟩
          · exact (ih.mp h) m' hm'
        · intro h
          exact ih.mpr (fun m' hm' => h m' (List.mem_cons_of_mem _ hm'))
      · rename_i hnf
        refine ⟨fun h => absurd h (by simp), fun h => ?_⟩
        obtain ⟨e', he', hnf'⟩ := h m (by simp)
        rw [hg] at he'
        cases he'
        exact absurd hnf' hnf

/-- A successful outcome is the first success: the loop stopped at a
model that produced the response, and every model attempted before it
failed with a not-found error. -/
theorem try_generate_success (gen : String → AIManager.GenAttempt) :
    ∀ (names : List String) (r : String),
      (AIManager._try_generate_with_models gen names).2 = .success r →
      ∃ pre m post, names = pre ++ m :: post ∧
        (AIManager._try_generate_with_models gen names).1 = pre ++ [m] ∧
        gen m = .ok r ∧
        ∀ m0 ∈ pre, ∃ e, gen m0 = .exn e ∧ AIManager.isNotFoundError e = true
  | [], r => by simp [AIManager._try_generate_with_models]
  | m :: rest, r => by
    unfold AIManager._try_generate_with_models
    cases hg : gen m with
    | ok t =>
      dsimp only
      intro h
      cases h
      exact ⟨[], m, rest, rfl, rfl, hg, by simp⟩
    | exn e =>
      dsimp only
      split
      · rename_i hnf
        intro h
        obtain ⟨pre, m1, post, hnames, htr, hok, hpre⟩ :=
          try_generate_success gen rest r h
        refine ⟨m :: pre, m1, post, by simp [hnames], by simp [htr], hok, ?_⟩
        intro m0 hm0
        rcases List.mem_cons.mp hm0 with rfl | hm0
        · exact ⟨e, hg, hnf⟩
        · exact hpre m0 hm0
      · intro h
        exact absurd h (by simp)

/-- A re-raised error is not a not-found error: the loop stopped at the
first model whose failure text contains neither "404" nor "NOT_FOUND",
after not-found failures only. -/
theorem try_generate_raised (gen : String → AIManager.GenAttempt) :
    ∀ (names : List String) (e : String),
      (AIManager._try_generate_with_models gen names).2 = .raised e →
      AIManager.isNotFoundError e = false ∧
      ∃ pre m post, names = pre ++ m :: post ∧
        (AIManager._try_generate_with_models gen names).1 = pre ++ [m] ∧
        gen m = .exn e ∧
        ∀ m0 ∈ pre, ∃ e0, gen m0 = .exn e0 ∧ AIManager.isNotFoundError e0 = true
  | [], e => by simp [AIManager._try_generate_with_models]
  | m :: rest, e => by
    unfold AIManager._try_generate_with_models
    cases hg : gen m with
    | ok t =>
      dsimp only
      intro h
      exact absurd h (by simp)
    | exn e0 =>
      dsimp only
      split
      · rename_i hnf
        intro h
        obtain ⟨hnf2, pre, m1, post, hnames, htr, hexn, hpre⟩ :=
          try_generate_raised gen rest e h
        refine ⟨hnf2, m :: pre, m1, post, by simp [hnames], by simp [htr], hexn, ?_⟩
        intro m0 hm0
        rcases List.mem_cons.mp hm0 with rfl | hm0
        · exact ⟨e0, hg, hnf⟩
        · exact hpre m0 hm0
      · rename_i hnf
        intro h
        cases h
        exact ⟨Bool.not_eq_true _ ▸ (Bool.of_not_eq_true hnf),
          [], m, rest, rfl, rfl, hg, by simp⟩

/-! ### Claim C4 -/

/-- C4: the fallback list is the static six-element list headed by
`Config.API_MODEL`; the loop attempts a prefix of it in order; it ends
exhausted (Python `None`) exactly when every listed model fails with a
not-found ("404"/"NOT_FOUND") error; a success is the first success,
everything attempted before it having failed not-found; a re-raised
error is the first non-not-found error; and when the loop is exhausted,
`generate_sql` returns a dict with status "error". -/
theorem C4_model_fallback_order (gen : String → AIManager.GenAttempt)
    (env : String → String → AIManager.GenAttempt)
    (parse : String → Option PyJson) (avail : List String)
    (schema_text user_query : String) :
    AIManager.model_names =
      [Config.API_MODEL, "gemini-2.5-flash", "gemini-2.5-pro",
       "gemini-1.5-flash", "gemini-1.5-pro", "gemini-pro"] ∧
    (AIManager._try_generate_with_models gen AIManager.model_names).1 <+:
      AIManager.model_names ∧
    ((AIManager._try_generate_with_models gen AIManager.model_names).2 = .exhausted ↔
      ∀ m ∈ AIManager.model_names, ∃ e, gen m = .exn e ∧
        AIManager.isNotFoundError e = true) ∧
    (∀ r, (AIManager._try_generate_with_models gen AIManager.model_names).2 = .success r →
      ∃ pre m post, AIManager.model_names = pre ++ m :: post ∧
        (AIManager._try_generate_with_models gen AIManager.model_names).1 = pre ++ [m] ∧
        gen m = .ok r ∧
        ∀ m0 ∈ pre, ∃ e, gen m0 = .exn e ∧ AIManager.isNotFoundError e = true) ∧
    (∀ e, (AIManager._try_generate_with_models gen AIManager.model_names).2 = .raised e →
      AIManager.isNotFoundError e = false ∧
      ∃ pre m post, AIManager.model_names = pre ++ m :: post ∧
        (AIManager._try_generate_with_models gen AIManager.model_names).1 = pre ++ [m] ∧
        gen m = .exn e ∧
        ∀ m0 ∈ pre, ∃ e0, gen m0 = .exn e0 ∧ AIManager.isNotFoundError e0 = true) ∧
    ((AIManager._try_generate_with_models
        (fun m => env m (AIManager.sql_prompt schema_text user_query))
        AIManager.model_names).2 = .exhausted →
      jsonGet (AIManager.generate_sql env parse avail schema_text user_query)
        "status" = some (.str "error")) := by
  refine ⟨rfl,
    try_generate_trace_prefix gen AIManager.model_names,
    try_generate_exhausted_iff gen AIManager.model_names,
    fun r => try_generate_success gen AIManager.model_names r,
    fun e => try_generate_raised gen AIManager.model_names e,
    fun hex => ?_⟩
  unfold AIManager.generate_sql
  dsimp only
  rw [hex]
  rfl

/-! ### Claim C5 -/

/-- C5: for a successful model response with text t, `generate_sql`
post-processes t with `strip_fences` — strip, remove every occurrence of
the substring "```json", then every occurrence of "```", strip again —
and parses the result.  A parse failure yields exactly
the dict with status "error" and message "AI returned invalid JSON"
(no exception escapes); a parsed dict whose "status" field is the string
"success" is returned unchanged; any other parse result produces an
error-status dict instead (from the dict's "message" with default
"Invalid AI response", or from the AttributeError raised on a non-dict),
so the parsed value passes through unchanged only via the
status-"success" branch. -/
theorem C5_generate_sql_json_handling (env : String → String → AIManager.GenAttempt)
    (parse : String → Option PyJson) (avail : List String)
    (schema_text user_query : String) :
    ∀ t, (AIManager._try_generate_with_models
        (fun m => env m (AIManager.sql_prompt schema_text user_query))
        AIManager.model_names).2 = .success t →
      (parse (AIManager.strip_fences t) = none →
        AIManager.generate_sql env parse avail schema_text user_query =
          errorStr "AI returned invalid JSON") ∧
      (∀ r, parse (AIManager.strip_fences t) = some r →
        (r.isObj = true → jsonGet r "status" = some (.str "success") →
          AIManager.generate_sql env parse avail schema_text user_query = r) ∧
        (r.isObj = true → ¬jsonGet r "status" = some (.str "success") →
          AIManager.generate_sql env parse avail schema_text user_query =
            errorDict ((jsonGet r "message").getD (.str "Invalid AI response"))) ∧
        (r.isObj = false →
          jsonGet (AIManager.generate_sql env parse avail schema_text user_query)
            "status" = some (.str "error"))) := by
  intro t ht
  unfold AIManager.generate_sql
  dsimp only
  rw [ht]
  dsimp only
  constructor
  · intro hp
    rw [hp]
  · intro r hp
    rw [hp]
    dsimp only
    refine ⟨?_, ?_, ?_⟩
    · intro hobj hstat
      rw [if_pos hobj, if_pos ((getStatusIsSuccess_iff r).mpr hstat)]
    · intro hobj hstat
      rw [if_pos hobj, if_neg (fun hs => hstat ((getStatusIsSuccess_iff r).mp hs))]
    · intro hobj
      rw [if_neg (by simp [hobj])]
      rfl

/-- C5 witness: the theorem at a client whose first model answers with
the unparseable text "not json" and a parser that rejects everything:
`generate_sql` returns the invalid-JSON error dict. -/
theorem C5_generate_sql_json_handling_witness :
    ((none : Option PyJson) = none →
      AIManager.generate_sql (fun _ _ => AIManager.GenAttempt.ok "not json")
        (fun _ => none) [] "schema" "question" =
        errorStr "AI returned invalid JSON") ∧
    (∀ r, (none : Option PyJson) = some r →
      (r.isObj = true → jsonGet r "status" = some (.str "success") →
        AIManager.generate_sql (fun _ _ => AIManager.GenAttempt.ok "not json")
          (fun _ => none) [] "schema" "question" = r) ∧
      (r.isObj = true → ¬jsonGet r "status" = some (.str "success") →
        AIManager.generate_sql (fun _ _ => AIManager.GenAttempt.ok "not json")
          (fun _ => none) [] "schema" "question" =
          errorDict ((jsonGet r "message").getD (.str "Invalid AI response"))) ∧
      (r.isObj = false →
        jsonGet (AIManager.generate_sql (fun _ _ => AIManager.GenAttempt.ok "not json")
          (fun _ => none) [] "schema" "question") "status" = some (.str "error"))) :=
  C5_generate_sql_json_handling (fun _ _ => AIManager.GenAttempt.ok "not json")
    (fun _ => none) [] "schema" "question" "not json" rfl

/-! ### Claim C10 -/

/-- The three fallback suggestions are a non-empty list of at most three
non-empty strings. -/
theorem default_suggestions_shape :
    AIManager._get_default_suggestions ≠ [] ∧
    AIManager._get_default_suggestions.length ≤ 3 ∧
    ∀ s ∈ AIManager._get_default_suggestions, s ≠ "" := by decide

/-- A non-empty cleaned-suggestion list is a non-empty list of at most
three non-empty strings. -/
theorem cleaned_suggestions_shape (items : List PyJson)
    (h : (((items.take 3).map AIManager.clean_suggestion).filter
        (fun s => s != "")).isEmpty = false) :
    ((items.take 3).map AIManager.clean_suggestion).filter (fun s => s != "") ≠ [] ∧
    (((items.take 3).map AIManager.clean_suggestion).filter
      (fun s => s != "")).length ≤ 3 ∧
    ∀ s ∈ ((items.take 3).map AIManager.clean_suggestion).filter (fun s => s != ""),
      s ≠ "" := by
  refine ⟨(fun hc => by rw [hc] at h; cases h), ?_, ?_⟩
  · have h1 := List.length_filter_le (fun s => s != "")
      ((items.take 3).map AIManager.clean_suggestion)
    have h2 : ((items.take 3).map AIManager.clean_suggestion).length =
        (items.take 3).length := List.length_map _ _
    have h3 : (items.take 3).length ≤ 3 := by
      rw [List.length_take]
      omega
    omega
  · intro s hs
    have := (List.mem_filter.mp hs).2
    simpa using this

/-- C10: `generate_suggestions` always returns a non-empty list of at
most three non-empty strings; on an exhausted or re-raised model loop,
a JSON parse failure, a parse result that is not a list, or a list that
cleans to nothing, it returns exactly the three default suggestions;
for a parsed list it returns the first three entries with parenthesized
fragments removed and whitespace stripped, empties dropped, falling back
to the defaults when nothing survives. -/
theorem C10_generate_suggestions_shape (env : String → String → AIManager.GenAttempt)
    (parse : String → Option PyJson) (schema : List (String × TableInfo)) :
    (AIManager.generate_suggestions env parse schema ≠ [] ∧
     (AIManager.generate_suggestions env parse schema).length ≤ 3 ∧
     ∀ s ∈ AIManager.generate_suggestions env parse schema, s ≠ "") ∧
    ((AIManager._try_generate_with_models
        (fun m => env m (AIManager.suggestions_prompt schema))
        AIManager.model_names).2 = .exhausted →
      AIManager.generate_suggestions env parse schema =
        AIManager._get_default_suggestions) ∧
    (∀ e, (AIManager._try_generate_with_models
        (fun m => env m (AIManager.suggestions_prompt schema))
        AIManager.model_names).2 = .raised e →
      AIManager.generate_suggestions env parse schema =
        AIManager._get_default_suggestions) ∧
    (∀ t, (AIManager._try_generate_with_models
        (fun m => env m (AIManager.suggestions_prompt schema))
        AIManager.model_names).2 = .success t →
      (parse (bracket_slice (AIManager.strip_fences t)) = none →
        AIManager.generate_suggestions env parse schema =
          AIManager._get_default_suggestions) ∧
      (∀ j, parse (bracket_slice (AIManager.strip_fences t)) = some j →
        ((∀ items, ¬j = PyJson.arr items) →
          AIManager.generate_suggestions env parse schema =
            AIManager._get_default_suggestions) ∧
        (∀ items, j = PyJson.arr items →
          AIManager.generate_suggestions env parse schema =
            (if (((items.take 3).map AIManager.clean_suggestion).filter
                  (fun s => s != "")).isEmpty
             then AIManager._get_default_suggestions
             else ((items.take 3).map AIManager.clean_suggestion).filter
                  (fun s => s != ""))))) := by
  refine ⟨?_, ?_, ?_, ?_⟩
  · unfold AIManager.generate_suggestions
    dsimp only
    cases htry : (AIManager._try_generate_with_models
        (fun m => env m (AIManager.suggestions_prompt schema))
        AIManager.model_names).2 with
    | exhausted => exact default_suggestions_shape
    | raised e => exact default_suggestions_shape
    | success t =>
      dsimp only
      cases hp : parse (bracket_slice (AIManager.strip_fences t)) with
      | none => exact default_suggestions_shape
      | some j =>
        dsimp only
        cases j with
        | arr items =>
          dsimp only
          cases hclean : (((items.take 3).map AIManager.clean_suggestion).filter
              (fun s => s != "")).isEmpty with
          | true =>
            simp only [Bool.not_true]
            rw [if_neg (by simp)]
            exact default_suggestions_shape
          | false =>
            simp only [Bool.not_false, if_true]
            exact cleaned_suggestions_shape items hclean
        | null => exact default_suggestions_shape
        | bool b => exact default_suggestions_shape
        | num n => exact default_suggestions_shape
        | str s => exact default_suggestions_shape
        | obj fields => exact default_suggestions_shape
  · intro hex
    unfold AIManager.generate_suggestions
    dsimp only
    rw [hex]
  · intro e hra
    unfold AIManager.generate_suggestions
    dsimp only
    rw [hra]
  · intro t ht
    unfold AIManager.generate_suggestions
    dsimp only
    rw [ht]
    dsimp only
    constructor
    · intro hp
      rw [hp]
    · intro j hp
      rw [hp]
      dsimp only
      constructor
      · intro hnotarr
        cases j with
        | arr items => exact absurd rfl (hnotarr items)
        | null => rfl
        | bool b => rfl
        | num n => rfl
        | str s => rfl
        | obj fields => rfl
      · intro items hj
        subst hj
        dsimp only
        cases hclean : (((items.take 3).map AIManager.clean_suggestion).filter
            (fun s => s != "")).isEmpty with
        | true => simp
        | false => simp

end AIDb
